import Mathlib

/-!
Verification development for the QA-SiteCheck analysis pipeline
(`src/backend/app/services/`).  The Python services are shallowly embedded:

* The BeautifulSoup DOM handle that every analyzer consumes is modelled by
  `Soup`, a flat list of `Tag`s in document order (pre-order), which is the
  narrow read-only query interface the services actually use.  Each `Tag`
  carries the derived views the code queries: its attributes, its
  BeautifulSoup `.string` value (`stringChild`), its `get_text(strip=True)`
  value (`textContent`), and the names of its enclosing elements
  (`ancestors`, used for `find_parent`).
* Network interactions (W3C validator, VirusTotal, PageSpeed, Playwright,
  httpx) are modelled by explicit outcome values passed to the embedded
  functions; the functions themselves reproduce the Python control flow.
* Python `float` timing values are modelled exactly as rationals; machine
  integers are `Int`/`Nat` (no overflow is possible in the source ranges).
-/

/-- Severity/record emitted by every analyzer (the Python dicts share this
shape; fields a given record does not set are `none`/`[]`). -/
structure IssueRecord where
  type : String
  message : String
  category : Option String := none
  guideline : Option String := none
  source : Option String := none
  count : Option Nat := none
  details : List String := []
  stats : Option (Nat × Nat) := none
  deriving DecidableEq, Repr

/-- One parsed HTML element, with the derived views the services query. -/
structure Tag where
  name : String
  attrs : List (String × String)
  stringChild : Option String := none
  textContent : String := ""
  ancestors : List String := []
  deriving DecidableEq, Repr

/-- The parsed document: all elements in document (pre-order) order. -/
abbrev Soup := List Tag

/-- `tag.get(a)` — attribute lookup. -/
def Tag.get (t : Tag) (a : String) : Option String :=
  (t.attrs.find? (fun kv => kv.1 == a)).map (fun kv => kv.2)

/-- `soup.find_all(name)` — all elements with the tag name, document order. -/
def findAll (soup : Soup) (name : String) : List Tag :=
  soup.filter (fun t => t.name == name)

/-- `soup.find(name)` — first element with the tag name. -/
def findTag (soup : Soup) (name : String) : Option Tag :=
  (findAll soup name).head?

/-- Bool substring test (Python `needle in hay`), needle-first on lists. -/
def listIsInfix : List Char → List Char → Bool
  | needle, [] => needle.isEmpty
  | needle, c :: t => needle.isPrefixOf (c :: t) || listIsInfix needle t

/-- Python `needle in hay` for strings. -/
def containsStr (hay needle : String) : Bool :=
  listIsInfix needle.toList hay.toList

/-- Python `str.lower()` (ASCII range, which covers every string the
services lowercase). -/
def strLower (s : String) : String := String.mk (s.toList.map Char.toLower)

/-- `s.startswith(pre)`. -/
def strStartsWith (s pre : String) : Bool := pre.toList.isPrefixOf s.toList

/-- Python `str.strip()`. -/
def strTrim (s : String) : String :=
  String.mk (((s.toList.dropWhile Char.isWhitespace).reverse.dropWhile
    Char.isWhitespace).reverse)

/-- Split on a single character (used for `:` in `urlparse` and the
whitespace-separated multi-valued `rel` attribute). -/
def splitOnCharAux (c : Char) : List Char → List Char → List String
  | [], acc => [String.mk acc.reverse]
  | x :: xs, acc =>
    if x == c then String.mk acc.reverse :: splitOnCharAux c xs []
    else splitOnCharAux c xs (x :: acc)

def splitOnChar (c : Char) (s : String) : List String :=
  splitOnCharAux c s.toList []

namespace HTMLBugsService

/-- After the literal `<!DOCTYPE`, the regex requires `\s+` then `html`
(case-insensitive). -/
def afterDoctype : List Char → Bool
  | [] => false
  | c :: rest =>
    c.isWhitespace &&
      "html".toList.isPrefixOf (((c :: rest).dropWhile Char.isWhitespace).map Char.toLower)

/-- Skip the `^\s*` part, then match `<!DOCTYPE` case-insensitively. -/
def hasDoctypeAux : List Char → Bool
  | [] => false
  | c :: rest =>
    if c.isWhitespace then hasDoctypeAux rest
    else
      "<!doctype".toList.isPrefixOf ((c :: rest).map Char.toLower) &&
        afterDoctype ((c :: rest).drop 9)

/-- `_has_doctype`: `re.search(r'^\s*<!DOCTYPE\s+html', html, re.IGNORECASE)`.
The pattern is anchored at the string start (no MULTILINE flag). -/
def hasDoctype (html : String) : Bool :=
  hasDoctypeAux html.toList

/-- `_find_duplicate_ids`: count `id` values over `find_all(id=True)`;
duplicated values, in first-occurrence order (Python dict insertion order). -/
def findDuplicateIds (soup : Soup) : List String :=
  let ids := (soup.filter (fun t => (t.get "id").isSome)).map
    (fun t => (t.get "id").getD "")
  (ids.dedup).filter (fun v => 1 < ids.count v)

/-- Deprecated tags checked by the local validator. -/
def deprecatedTags : List String :=
  ["center", "font", "marquee", "blink", "big", "strike"]

/-- `soup.find('meta', charset=True) or soup.find('meta', {'http-equiv': 'Content-Type'})` -/
def charsetMetaPresent (soup : Soup) : Bool :=
  (findAll soup "meta").any (fun t => (t.get "charset").isSome) ||
  (findAll soup "meta").any (fun t => t.get "http-equiv" == some "Content-Type")

/-- `soup.find_all('img', alt=False)` — images with no `alt` attribute. -/
def imgsWithoutAlt (soup : Soup) : List Tag :=
  (findAll soup "img").filter (fun t => (t.get "alt").isNone)

/-- `HTMLBugsService._local_validation`.  The `html5lib` block in the source
is commented out (a stray docstring expression) and contributes nothing. -/
def localValidation (html : String) (soup : Soup) : List IssueRecord :=
  let bugs : List IssueRecord :=
    [{ type := "info", message := "Local HTML validation started" }]
    ++ (if ¬ hasDoctype html then
          [{ type := "warning", message := "Missing or invalid DOCTYPE declaration" }] else [])
    ++ (if (findTag soup "html").isNone then
          [{ type := "error", message := "Missing <html> element" }] else [])
    ++ (if (findTag soup "head").isNone then
          [{ type := "error", message := "Missing <head> element" }] else [])
    ++ (if (findTag soup "body").isNone then
          [{ type := "error", message := "Missing <body> element" }] else [])
    ++ (if (findTag soup "title").isNone then
          [{ type := "error", message := "Missing <title> element" }] else [])
    ++ (if ¬ charsetMetaPresent soup then
          [{ type := "warning", message := "Missing character encoding declaration" }] else [])
    ++ ((findDuplicateIds soup).map (fun v =>
          { type := "error", message := "Duplicate ID \x27" ++ v ++ "\x27 found" }))
    ++ (if imgsWithoutAlt soup ≠ [] then
          [{ type := "warning",
             message := "Found " ++ toString (imgsWithoutAlt soup).length
               ++ " <img> without \x27alt\x27 attribute" }] else [])
    ++ (deprecatedTags.filterMap (fun tag =>
          let found := findAll soup tag
          if found ≠ [] then
            some { type := "warning",
                   message := "Deprecated <" ++ tag ++ "> element found ("
                     ++ toString found.length ++ " occurrence(s))" }
          else none))
  if 1 < bugs.length then bugs
  else [{ type := "info", message := "No major HTML issues detected" }]

/-- One message of the W3C validator's JSON reply. -/
structure W3CMsg where
  type : String
  message : String
  deriving DecidableEq, Repr

/-- Outcome of the POST to the W3C validator.  `failure` covers
`requests.RequestException`, `ValueError` (bad JSON) and `KeyError`
(a message without a `type` field) — all routed to the local fallback. -/
inductive W3COutcome where
  | ok (msgs : List W3CMsg)
  | failure
  deriving DecidableEq, Repr

/-- `HTMLBugsService.analyze` — the primary W3C path with the local
fallback.  `soup` is the BeautifulSoup parse of `html`. -/
def analyze (w3c : W3COutcome) (html : String) (soup : Soup) : List IssueRecord :=
  match w3c with
  | .ok msgs =>
    let bugs := (msgs.filter (fun m => m.type == "error" || m.type == "warning")).map
      (fun m => { type := m.type, message := m.message })
    if bugs = [] then [{ type := "info", message := "No HTML bugs found" }] else bugs
  | .failure => localValidation html soup

end HTMLBugsService

namespace AccessibilityService

/-- `_check_images_alt`: images whose `alt` is absent or blank. -/
def checkImagesAlt (soup : Soup) : List String :=
  (findAll soup "img").filterMap (fun img =>
    let alt := img.get "alt"
    if alt.isNone || strTrim (alt.getD "") == "" then
      let src := (img.get "src").getD "unknown"
      some ("<img src=\x27" ++ src.take 50 ++ "...\x27>")
    else none)

/-- `_check_form_labels`: inputs (other than hidden/submit/button) with no
`label[for=id]` in the document and no enclosing `<label>`. -/
def checkFormLabels (soup : Soup) : List String :=
  (findAll soup "input").filterMap (fun inp =>
    let inputType := (inp.get "type").getD "text"
    if inputType == "hidden" || inputType == "submit" || inputType == "button" then
      none
    else
      let inputName := (inp.get "name").getD "unknown"
      let labelled :=
        (match inp.get "id" with
         | some i => (findAll soup "label").any (fun l => l.get "for" == some i)
         | none => false)
        || inp.ancestors.contains "label"
      if labelled then none
      else some ("<input type=\x27" ++ inputType ++ "\x27 name=\x27" ++ inputName ++ "\x27>"))

/-- Heading level: `int(heading[1])` for names drawn from h1…h6. -/
def levelOf (h : String) : Nat :=
  match (h.drop 1).toList with
  | c :: _ => c.toNat - 48
  | [] => 0

/-- The message for a level skip.  The source computes the previous heading
as `headings[headings.index(heading)-1]`: the index of the FIRST occurrence
of the same tag name, so with `index = 0` Python's `headings[-1]` is the
LAST list element. -/
def skipMsg (all : List String) (h : String) : String :=
  let idx := all.indexOf h
  let prev := if idx = 0 then (all.getLast?).getD "" else (all.get? (idx - 1)).getD ""
  "Skipped from <" ++ prev ++ "> to <" ++ h ++ ">"

/-- The hierarchy loop of `_check_heading_hierarchy` (carrying `last_level`). -/
def hierarchyIssues (all : List String) : List String → Nat → List String
  | [], _ => []
  | h :: rest, lastLevel =>
    let level := levelOf h
    (if 0 < lastLevel ∧ 1 < level - lastLevel then [skipMsg all h] else [])
      ++ hierarchyIssues all rest level

/-- `_check_heading_hierarchy`. -/
def checkHeadingHierarchy (soup : Soup) : List String :=
  let headings := (soup.filter (fun t =>
    t.name == "h1" || t.name == "h2" || t.name == "h3" ||
    t.name == "h4" || t.name == "h5" || t.name == "h6")).map (fun t => t.name)
  if headings = [] then []
  else
    let h1Count := headings.count "h1"
    (if 1 < h1Count then
       ["Multiple h1 elements found (" ++ toString h1Count ++ ")"] else [])
      ++ hierarchyIssues headings headings 0

/-- The fixed non-descriptive phrase set. -/
def nonDescriptive : List String := ["click here", "read more", "link", "more", "here"]

/-- `_check_link_text`. -/
def checkLinkText (soup : Soup) : List String :=
  (findAll soup "a").filterMap (fun a =>
    let text := strLower a.textContent
    let href := (a.get "href").getD "#"
    if text == "" then
      some ("<a href=\x27" ++ href.take 30 ++ "...\x27> (empty text)")
    else if nonDescriptive.contains text then
      some ("<a href=\x27" ++ href.take 30 ++ "...\x27>" ++ text ++ "</a>")
    else none)

/-- The fixed "light color" heuristic set. -/
def lightColors : List String :=
  ["white", "#fff", "#ffffff", "rgb(255,255,255)", "lightgray", "yellow"]

/-- `_check_color_contrast`: elements with a `style` attribute whose
lowercased value mentions `color:` and one of the light colors. -/
def checkColorContrast (soup : Soup) : List String :=
  (soup.filter (fun t => (t.get "style").isSome)).filterMap (fun elem =>
    let style := strLower ((elem.get "style").getD "")
    if containsStr style "color:" ∧ lightColors.any (fun c => containsStr style c) then
      some ("Potential contrast issue: " ++ elem.name ++ " with style=\x27"
        ++ style.take 50 ++ "\x27")
    else none)

/-- `_check_lang_attribute`. -/
def checkLangAttribute (soup : Soup) : Bool :=
  match findTag soup "html" with
  | some t => (t.get "lang").isSome
  | none => false

/-- `AccessibilityService.analyze`: six independent checks, each block
appended when its check fires; non-empty result guaranteed by the final
single-info fallback. -/
def analyze (soup : Soup) : List IssueRecord :=
  let missingAlt := checkImagesAlt soup
  let missingLabels := checkFormLabels soup
  let headingIssues := checkHeadingHierarchy soup
  let badLinks := checkLinkText soup
  let contrastIssues := checkColorContrast soup
  let issues : List IssueRecord :=
    (if missingAlt ≠ [] then
      [{ type := "error", category := some "accessibility",
         guideline := some "WCAG 1.1.1",
         message := "Found " ++ toString missingAlt.length ++ " image(s) without alt text",
         count := some missingAlt.length, details := missingAlt.take 3 }] else [])
    ++ (if missingLabels ≠ [] then
      [{ type := "error", category := some "accessibility",
         guideline := some "WCAG 1.3.1",
         message := "Found " ++ toString missingLabels.length ++ " form input(s) without labels",
         count := some missingLabels.length, details := missingLabels.take 3 }] else [])
    ++ (if headingIssues ≠ [] then
      [{ type := "warning", category := some "accessibility",
         guideline := some "WCAG 2.4.6",
         message := "Heading hierarchy issues detected",
         count := some headingIssues.length, details := headingIssues }] else [])
    ++ (if badLinks ≠ [] then
      [{ type := "warning", category := some "accessibility",
         guideline := some "WCAG 2.4.4",
         message := "Found " ++ toString badLinks.length ++ " link(s) with non-descriptive text",
         count := some badLinks.length, details := badLinks.take 3 }] else [])
    ++ (if contrastIssues ≠ [] then
      [{ type := "warning", category := some "accessibility",
         guideline := some "WCAG 1.4.3",
         message := "Potential color contrast issues found",
         count := some contrastIssues.length, details := contrastIssues.take 3 }] else [])
    ++ (if ¬ checkLangAttribute soup then
      [{ type := "error", category := some "accessibility",
         guideline := some "WCAG 3.1.1",
         message := "Missing \x27lang\x27 attribute on <html> element" }] else [])
  if issues = [] then
    [{ type := "info", message := "No accessibility issues detected" }]
  else issues

end AccessibilityService

/-- `urlparse` accepts a scheme made of an initial letter followed by
letters, digits, `+`, `-` or `.`. -/
def validSchemeChars : List Char → Bool
  | [] => false
  | c :: rest =>
    c.isAlpha && rest.all (fun d => d.isAlphanum || d == '+' || d == '-' || d == '.')

/-- `urlparse(url).scheme` (lowercased; empty when no valid scheme). -/
def urlScheme (url : String) : String :=
  match splitOnChar ':' url with
  | [_] => ""
  | s :: _ => if validSchemeChars s.toList then strLower s else ""
  | [] => ""

/-- The URL with a leading valid `scheme:` removed. -/
def urlRest (url : String) : String :=
  match splitOnChar ':' url with
  | [_] => url
  | s :: _ => if validSchemeChars s.toList then url.drop (s.length + 1) else url
  | [] => url

/-- `urlparse(url).netloc`: present only after `//`, ended by `/`, `?`, `#`. -/
def urlNetloc (url : String) : String :=
  let r := urlRest url
  if strStartsWith r "//" then
    (r.drop 2).takeWhile (fun c => c ≠ '/' && c ≠ '?' && c ≠ '#')
  else ""

namespace SecurityService

/-- Outcome of the VirusTotal lookup for a URL: HTTP 404 (no verdict yet),
a verdict with its `malicious`/`suspicious` vote counts, or any exception
(network error, bad JSON, missing fields). -/
inductive VTResponse where
  | notFound
  | stats (malicious suspicious : Nat)
  | failure
  deriving DecidableEq, Repr

/-- `_check_virustotal`, given the service's reply.  `none` models the
raised exception that `analyze` catches. -/
def checkVirustotal (resp : VTResponse) : Option IssueRecord :=
  match resp with
  | .notFound =>
    some { type := "info", category := some "security", source := some "VirusTotal",
           message := "URL submitted to VirusTotal for analysis" }
  | .stats m s =>
    if 0 < m ∨ 0 < s then
      some { type := "critical", category := some "security", source := some "VirusTotal",
             message := "URL flagged as malicious or suspicious", stats := some (m, s) }
    else
      some { type := "info", category := some "security", source := some "VirusTotal",
             message := "URL not flagged by VirusTotal" }
  | .failure => none

/-- `_is_https`. -/
def isHttps (url : String) : Bool := urlScheme url == "https"

/-- The five required security response headers. -/
def requiredHeaders : List String :=
  ["Strict-Transport-Security", "Content-Security-Policy", "X-Frame-Options",
   "X-Content-Type-Options", "Referrer-Policy"]

/-- `_missing_headers`: required names absent from the response-header dict. -/
def missingHeaders (headers : List (String × String)) : List String :=
  requiredHeaders.filter (fun h => ¬ headers.any (fun kv => kv.1 == h))

/-- `_count_inline_scripts`: scripts with a falsy `src` (absent or empty)
and a truthy `.string` (a non-empty text child). -/
def countInlineScripts (soup : Soup) : Nat :=
  (findAll soup "script").countP (fun s =>
    (match s.get "src" with | none => true | some v => v == "") &&
    (match s.stringChild with | some c => c != "" | none => false))

/-- `_static_html_checks`. -/
def staticHtmlChecks (soup : Soup) (url : String) (headers : List (String × String)) :
    List IssueRecord :=
  (if ¬ isHttps url then
    [{ type := "critical", category := some "security",
       message := "Site is not using HTTPS" }] else [])
  ++ (if missingHeaders headers ≠ [] then
    [{ type := "high", category := some "security",
       message := "Missing security headers", details := missingHeaders headers }] else [])
  ++ (if 0 < countInlineScripts soup then
    [{ type := "medium", category := some "security",
       message := toString (countInlineScripts soup) ++ " inline scripts detected" }] else [])

/-- The result shape `SecurityService.analyze` returns. -/
structure SecurityResult where
  primary_check : String
  fallback_used : Bool
  issues : List IssueRecord
  deriving DecidableEq, Repr

/-- `SecurityService.analyze`.  `vtAvailable` models
`bool(os.getenv("VIRUSTOTAL_API_KEY"))`; `resp` models the VirusTotal
interaction; the Python default `headers=None` is the empty dict here. -/
def analyze (vtAvailable : Bool) (resp : VTResponse) (soup : Soup) (url : String)
    (headers : List (String × String)) : SecurityResult :=
  if vtAvailable then
    match checkVirustotal resp with
    | some vtIssue =>
      if vtIssue.type == "critical" then
        { primary_check := "VirusTotal", fallback_used := false, issues := [vtIssue] }
      else
        let issues := [vtIssue] ++ staticHtmlChecks soup url headers
        { primary_check := "VirusTotal", fallback_used := false,
          issues := if issues = [] then
            [{ type := "info", category := some "security",
               message := "No security issues detected" }] else issues }
    | none =>
      let issues := staticHtmlChecks soup url headers
      { primary_check := "VirusTotal", fallback_used := true,
        issues := if issues = [] then
          [{ type := "info", category := some "security",
             message := "No security issues detected" }] else issues }
  else
    let issues := staticHtmlChecks soup url headers
    { primary_check := "VirusTotal", fallback_used := true,
      issues := if issues = [] then
        [{ type := "info", category := some "security",
           message := "No security issues detected" }] else issues }

end SecurityService

namespace FeedbackService

/-- The performance sub-dict the report reads (`qa["performance"]`):
`available`, optional `score`, optional `load_time` (stringified for the
description only). -/
structure PerfInfo where
  available : Bool
  score : Option Int := none
  load_time : Option String := none
  deriving DecidableEq, Repr

/-- `qa["seo_data"]`. -/
structure SeoData where
  title : Option String := none
  meta_tags : List (String × String) := []
  deriving DecidableEq, Repr

/-- The evidence bundle consumed by `_fallback_report`. -/
structure QAResult where
  performance : PerfInfo
  security_issues : SecurityService.SecurityResult
  accessibility_issues : List IssueRecord
  html_bugs : List IssueRecord
  seo_data : SeoData
  load_time : Option String := none
  deriving DecidableEq, Repr

/-- One entry of the report's five-element `metrics` list. -/
structure Metric where
  name : String
  score : Int
  status : String
  icon : String
  description : String
  color : String
  deriving DecidableEq, Repr

structure Recommendation where
  priority : String
  category : String
  title : String
  description : String
  impact : String
  deriving DecidableEq, Repr

structure ReportDetails where
  load_time : String
  total_issues : Nat
  critical_issues : Nat
  warnings : Nat
  ai_powered : Bool
  deriving DecidableEq, Repr

/-- The `ReportBundle` shape returned by the fallback generator. -/
structure Report where
  overall_score : Int
  grade : String
  status : String
  summary : String
  metrics : List Metric
  highlights : List String
  recommendations : List Recommendation
  details : ReportDetails
  deriving DecidableEq, Repr

/-- `_get_status`. -/
def getStatus (score : Int) : String :=
  if 90 ≤ score then "excellent"
  else if 75 ≤ score then "good"
  else if 50 ≤ score then "warning"
  else "critical"

/-- `_get_color`. -/
def getColor (score : Int) : String :=
  if 90 ≤ score then "#10b981"
  else if 75 ≤ score then "#3b82f6"
  else if 50 ≤ score then "#f59e0b"
  else "#ef4444"

/-- `_get_grade`. -/
def getGrade (score : Int) : String :=
  if 90 ≤ score then "A"
  else if 80 ≤ score then "B"
  else if 70 ≤ score then "C"
  else if 60 ≤ score then "D"
  else "F"

/-- `perf.get("score", 85) if perf.get("available") else 85`. -/
def perfScore (qa : QAResult) : Int :=
  if qa.performance.available then qa.performance.score.getD 85 else 85

/-- `max(0, 100 - (len(security_issues) * 15))`. -/
def secScore (qa : QAResult) : Int :=
  max 0 (100 - ((qa.security_issues.issues.length : Int) * 15))

/-- `max(0, 100 - (len(a11y_issues) * 10))`. -/
def a11yScore (qa : QAResult) : Int :=
  max 0 (100 - ((qa.accessibility_issues.length : Int) * 10))

/-- 95 for an empty bug list, else `max(0, 100 - (len(html_bugs) * 8))`. -/
def codeScore (qa : QAResult) : Int :=
  if qa.html_bugs = [] then 95
  else max 0 (100 - ((qa.html_bugs.length : Int) * 8))

/-- `bool(seo_data.get("title"))`. -/
def hasTitle (qa : QAResult) : Bool :=
  match qa.seo_data.title with
  | some t => t != ""
  | none => false

/-- `bool(seo_data.get("meta_tags"))`. -/
def hasMeta (qa : QAResult) : Bool := qa.seo_data.meta_tags != []

/-- `70 + (15 if has_title else 0) + (15 if has_meta else 0)`. -/
def seoScore (qa : QAResult) : Int :=
  70 + (if hasTitle qa then 15 else 0) + (if hasMeta qa then 15 else 0)

/-- `FeedbackService._fallback_report`: the deterministic report generator,
used when the Claude API is unconfigured or fails. -/
def fallbackReport (qa : QAResult) : Report :=
  let ps := perfScore qa
  let ss := secScore qa
  let as_ := a11yScore qa
  let cs := codeScore qa
  let seo := seoScore qa
  let securityIssues := qa.security_issues.issues
  let totalScore := ps + ss + as_ + cs + seo
  let overall := Int.fdiv totalScore 5
  let metrics : List Metric :=
    [{ name := "Performance", score := ps, status := getStatus ps, icon := "⚡",
       description := "Load time: " ++
         (qa.performance.load_time.getD (qa.load_time.getD "N/A")),
       color := getColor ps },
     { name := "Security", score := ss, status := getStatus ss, icon := "🔒",
       description := toString securityIssues.length ++ " security issues detected",
       color := getColor ss },
     { name := "Accessibility", score := as_, status := getStatus as_, icon := "♿",
       description := toString qa.accessibility_issues.length ++ " accessibility issues found",
       color := getColor as_ },
     { name := "Code Quality", score := cs, status := getStatus cs, icon := "💻",
       description := if qa.html_bugs ≠ [] then
           toString qa.html_bugs.length ++ " HTML issues detected"
         else "Clean HTML structure",
       color := getColor cs },
     { name := "SEO", score := seo, status := getStatus seo, icon := "🔍",
       description := "Search engine optimization", color := getColor seo }]
  let recommendations : List Recommendation :=
    (if ps < 70 then
      [{ priority := "high", category := "Performance",
         title := "Optimize Page Performance",
         description := "Reduce blocking scripts, compress images, and optimize assets to improve load times",
         impact := "Expected 30-50% faster load times" }] else [])
    ++ (if securityIssues ≠ [] then
      [{ priority := "critical", category := "Security",
         title := "Fix Security Vulnerabilities",
         description := "Add missing security headers (CSP, X-Frame-Options), remove inline scripts, ensure secure data transmission",
         impact := "Protect user data and prevent common web attacks" }] else [])
    ++ (if qa.accessibility_issues ≠ [] then
      [{ priority := "medium", category := "Accessibility",
         title := "Improve Web Accessibility",
         description := "Add alt text to images, improve color contrast, use semantic HTML, ensure keyboard navigation",
         impact := "Make your site usable for all users including those with disabilities" }] else [])
    ++ (if qa.html_bugs ≠ [] then
      [{ priority := "low", category := "Code Quality",
         title := "Fix HTML Structure Issues",
         description := "Correct invalid HTML markup, fix nesting errors, ensure valid HTML5 structure",
         impact := "Better browser compatibility and maintainability" }] else [])
    ++ (if ¬ hasTitle qa ∨ ¬ hasMeta qa then
      [{ priority := "medium", category := "SEO",
         title := "Improve SEO Metadata",
         description := "Add descriptive title tags, meta descriptions, structured data for better search visibility",
         impact := "Improved search engine rankings and click-through rates" }] else [])
  let highlights0 : List String :=
    (if ps < 70 then
      ["Performance score: " ++ toString ps ++ "/100 - optimization needed"] else [])
    ++ (if securityIssues ≠ [] then
      ["Security: " ++ toString securityIssues.length ++ " critical issues require attention"] else [])
    ++ (if qa.accessibility_issues ≠ [] then
      ["Accessibility: " ++ toString qa.accessibility_issues.length ++ " WCAG violations detected"] else [])
  let highlights1 :=
    if 80 ≤ overall then "✅ Excellent overall performance!" :: highlights0
    else if 60 ≤ overall then "👍 Good foundation with room for improvement" :: highlights0
    else highlights0
  let highlights :=
    if highlights1 = [] then
      ["✅ All critical checks passed", "Site is performing well overall"]
    else highlights1
  { overall_score := overall,
    grade := getGrade overall,
    status := getStatus overall,
    summary := "Website scored " ++ toString overall ++ "/100. " ++
      (if 80 ≤ overall then "Excellent work! Minor optimizations recommended."
       else if 60 ≤ overall then "Solid foundation with room for optimization."
       else "Several critical issues need immediate attention."),
    metrics := metrics,
    highlights := highlights,
    recommendations := recommendations,
    details :=
      { load_time := qa.load_time.getD "N/A",
        total_issues := securityIssues.length + qa.accessibility_issues.length
          + qa.html_bugs.length,
        critical_issues := securityIssues.length,
        warnings := qa.accessibility_issues.length + qa.html_bugs.length,
        ai_powered := false } }

end FeedbackService

/-- Python `round`: round half to even. -/
def roundHalfEven (q : ℚ) : ℤ :=
  let f := ⌊q⌋
  let r := q - f
  if r < 1/2 then f
  else if 1/2 < r then f + 1
  else if f % 2 = 0 then f else f + 1

/-- Python `round(q, n)` on exact rationals. -/
def roundTo (n : Nat) (q : ℚ) : ℚ :=
  (roundHalfEven (q * (10 ^ n : ℕ)) : ℚ) / (10 ^ n : ℕ)

namespace PerformanceService

/-- `PAGESPEED_COOLDOWN_SECONDS`. -/
def cooldownSeconds : ℚ := 10

/-- `CACHE_DURATION = timedelta(hours=6)`, in seconds. -/
def cacheDurationSeconds : ℚ := 6 * 3600

/-- `_estimate_score`: the local heuristic over time-to-first-byte (s) and
HTML size (KB). -/
def estimateScore (ttfb sizeKb : ℚ) : Int :=
  let score : Int := 100
  let score := if 3/2 < ttfb then score - 30
    else if 1 < ttfb then score - 20
    else if 7/10 < ttfb then score - 10
    else score
  let score := if 500 < sizeKb then score - 20
    else if 300 < sizeKb then score - 10
    else score
  max 30 (min score 100)

/-- `_grade`. -/
def grade (score : Int) : String :=
  if 90 ≤ score then "A"
  else if 80 ≤ score then "B"
  else if 70 ≤ score then "C"
  else if 60 ≤ score then "D"
  else "F"

/-- Why the local fallback ran (the source interpolates this into the
`note`/reason strings). -/
inductive Reason where
  | missingKey
  | cooldown (wait : ℚ)
  | rateLimit
  | badRequest (msg : String)
  | timeout
  | other (msg : String)
  deriving DecidableEq, Repr

/-- The result dict `analyze` returns; absent dict keys are `none`. -/
structure PerfResult where
  available : Bool
  fallback : Bool
  score : Option Int := none
  grade : Option String := none
  metrics : List (String × ℚ) := []
  source : String
  cached : Option Bool := none
  note : Option Reason := none
  message : Option String := none
  deriving DecidableEq, Repr

/-- The fields of the PageSpeed JSON body that `_parse_pagespeed` reads
(each `.get(..., 0)`-defaulted in the source). -/
structure PageSpeedData where
  performanceScore : Option ℚ := none
  lcp : Option ℚ := none
  fcp : Option ℚ := none
  cls : Option ℚ := none
  tbt : Option ℚ := none
  deriving DecidableEq, Repr

/-- Python `int()` truncation toward zero. -/
def intTrunc (q : ℚ) : Int := if 0 ≤ q then ⌊q⌋ else ⌈q⌉

/-- `_parse_pagespeed`. -/
def parsePagespeed (d : PageSpeedData) : PerfResult :=
  let score := intTrunc ((d.performanceScore.getD 0) * 100)
  { available := true, fallback := false, score := some score,
    grade := some (grade score),
    metrics := [("lcp", (d.lcp.getD 0) / 1000), ("fcp", (d.fcp.getD 0) / 1000),
                ("cls", d.cls.getD 0), ("tbt", d.tbt.getD 0)],
    source := "Google PageSpeed Insights", cached := some false }

/-- Outcome of the timed GET inside `_fallback_performance_check`. -/
inductive FallbackOutcome where
  | ok (ttfb : ℚ) (contentLen : Nat)
  | failure (msg : String)
  deriving DecidableEq, Repr

/-- `_fallback_performance_check` once the GET outcome is known. -/
def fallbackCheck (reason : Reason) (fb : FallbackOutcome) : PerfResult :=
  match fb with
  | .ok ttfb contentLen =>
    let sizeKb : ℚ := (contentLen : ℚ) / 1024
    let score := estimateScore ttfb sizeKb
    { available := true, fallback := true, score := some score,
      grade := some (grade score),
      metrics := [("ttfb", roundTo 2 ttfb), ("html_size_kb", roundTo 1 sizeKb)],
      source := "Lightweight HTTP Performance Check", note := some reason }
  | .failure msg =>
    { available := false, fallback := true,
      source := "Lightweight HTTP Performance Check",
      message := some ("Fallback failed: " ++ msg) }

/-- One cache slot: the stored result and the `cached_at` timestamp. -/
structure CacheEntry where
  data : PerfResult
  cachedAt : ℚ
  deriving DecidableEq, Repr

/-- The process-wide mutable state: the `(url, strategy)`-keyed cache (the
source uses `md5(f"{url}:{strategy}")` as key; we key by the hashed string
itself) and the global `_last_call_ts`. -/
structure PerfState where
  cache : List (String × CacheEntry)
  lastCallTs : ℚ
  deriving DecidableEq, Repr

/-- `_cache_key` (modulo the md5 hashing of this same string). -/
def cacheKey (url strategy : String) : String := url ++ ":" ++ strategy

def lookupCache (cache : List (String × CacheEntry)) (key : String) :
    Option CacheEntry :=
  (cache.find? (fun kv => kv.1 == key)).map (fun kv => kv.2)

def upsertCache (cache : List (String × CacheEntry)) (key : String)
    (e : CacheEntry) : List (String × CacheEntry) :=
  if cache.any (fun kv => kv.1 == key) then
    cache.map (fun kv => if kv.1 == key then (key, e) else kv)
  else cache ++ [(key, e)]

/-- How the external PageSpeed call went.  `timeout`/`netError` are raised
inside `client.get`, so `_last_call_ts` is NOT updated for them; the other
variants are decided after a response arrived (line 72 of the source runs
first), so `_last_call_ts` IS updated. -/
inductive APIOutcome where
  | timeout
  | netError (msg : String)
  | rateLimited
  | badRequest (msg : String)
  | statusError (msg : String)
  | ok (d : PageSpeedData)
  deriving DecidableEq, Repr

/-- What one `analyze` call produced: the returned dict, the state left
behind, and whether the external API was called at all. -/
structure AnalyzeOutcome where
  result : PerfResult
  state : PerfState
  externalCalled : Bool
  deriving DecidableEq, Repr

/-- The part of `analyze` after the API-key and cache checks: global
cooldown, then the external call with its per-status fallbacks. -/
def analyzeUncached (url strategy : String) (st : PerfState) (now tsResp : ℚ)
    (api : APIOutcome) (fb : FallbackOutcome) : AnalyzeOutcome :=
  if now - st.lastCallTs < cooldownSeconds then
    { result := fallbackCheck (.cooldown (cooldownSeconds - (now - st.lastCallTs))) fb,
      state := st, externalCalled := false }
  else
    match api with
    | .timeout =>
      { result := fallbackCheck .timeout fb, state := st, externalCalled := true }
    | .netError msg =>
      { result := fallbackCheck (.other msg) fb, state := st, externalCalled := true }
    | .rateLimited =>
      { result := fallbackCheck .rateLimit fb,
        state := { st with lastCallTs := tsResp }, externalCalled := true }
    | .badRequest msg =>
      { result := fallbackCheck (.badRequest msg) fb,
        state := { st with lastCallTs := tsResp }, externalCalled := true }
    | .statusError msg =>
      { result := fallbackCheck (.other msg) fb,
        state := { st with lastCallTs := tsResp }, externalCalled := true }
    | .ok d =>
      let parsed := parsePagespeed d
      let newCache := upsertCache st.cache (cacheKey url strategy)
        { data := parsed, cachedAt := tsResp }
      { result := parsed,
        state := { st with lastCallTs := tsResp, cache := newCache },
        externalCalled := true }

/-- `PerformanceService.analyze`.  `hasKey` models `bool(self.api_key)`;
`now` is the clock at entry (used for both the freshness and cooldown
comparisons), `tsResp` the clock reading taken after the external response
arrives. -/
def analyze (hasKey : Bool) (url strategy : String) (st : PerfState)
    (now tsResp : ℚ) (api : APIOutcome) (fb : FallbackOutcome) : AnalyzeOutcome :=
  if ¬ hasKey then
    { result := fallbackCheck .missingKey fb, state := st, externalCalled := false }
  else
    match lookupCache st.cache (cacheKey url strategy) with
    | some entry =>
      if now - entry.cachedAt < cacheDurationSeconds then
        { result := { entry.data with cached := some true }, state := st,
          externalCalled := false }
      else analyzeUncached url strategy st now tsResp api fb
    | none => analyzeUncached url strategy st now tsResp api fb

end PerformanceService

namespace FetcherService

/-- The per-level heading collections of a FetchedPage. -/
structure Headings where
  h1 : List Tag := []
  h2 : List Tag := []
  h3 : List Tag := []
  h4 : List Tag := []
  h5 : List Tag := []
  h6 : List Tag := []
  deriving DecidableEq, Repr

/-- The FetchedPage dict every exit path of `fetch` returns.  Keys the
success dicts do not carry (`error_type`, `note`, …) are `none`. -/
structure FetchResult where
  url : String
  final_url : String
  html : String
  soup : Soup
  status_code : Int
  load_time : ℚ
  size_bytes : Nat
  is_https : Bool
  domain : String
  title : Option String
  meta_tags : List (String × String)
  images : List Tag
  links : List Tag
  forms : List Tag
  scripts : List Tag
  stylesheets : List Tag
  headings : Headings
  error : Bool
  error_type : Option String := none
  error_message : Option String := none
  note : Option String := none
  deriving DecidableEq, Repr

/-- The fixed representative HTTP status for each error kind
(`_create_error_response`'s `status_map`, with its `.get(..., 500)`). -/
def statusFor (errorType : String) : Int :=
  if errorType == "dns_error" then 404
  else if errorType == "timeout" then 408
  else if errorType == "ssl_error" then 526
  else if errorType == "connection_refused" then 503
  else if errorType == "fetch_failed" then 500
  else 500

/-- `_create_error_response`. -/
def createErrorResponse (url errorType errorMessage : String) : FetchResult :=
  { url := url, final_url := url, html := "", soup := [],
    status_code := statusFor errorType, load_time := 0, size_bytes := 0,
    is_https := urlScheme url == "https", domain := urlNetloc url,
    title := none, meta_tags := [], images := [], links := [], forms := [],
    scripts := [], stylesheets := [], headings := {},
    error := true, error_type := some errorType,
    error_message := some errorMessage }

/-- `_extract_meta_tags`: name (or property) → content, later entries
overwriting earlier ones as in a Python dict. -/
def extractMetaTags (soup : Soup) : List (String × String) :=
  (findAll soup "meta").foldl (fun acc meta =>
    let name := (meta.get "name").getD ((meta.get "property").getD "")
    let content := (meta.get "content").getD ""
    if name != "" && content != "" then
      if acc.any (fun kv => kv.1 == name) then
        acc.map (fun kv => if kv.1 == name then (name, content) else kv)
      else acc ++ [(name, content)]
    else acc) []

/-- `find_all("link", rel="stylesheet")`: `rel` is a multi-valued
attribute, matched when `stylesheet` is among its space-separated values. -/
def findStylesheets (soup : Soup) : List Tag :=
  (findAll soup "link").filter (fun t =>
    (splitOnChar ' ' ((t.get "rel").getD "")).contains "stylesheet")

/-- What a successful Playwright navigation yielded: final URL, response
status (`None` when no response object), rendered HTML, its parse, and the
elapsed wall-clock time. -/
structure BrowserFetch where
  finalUrl : String
  status : Option Int
  html : String
  soup : Soup
  loadTime : ℚ
  deriving DecidableEq, Repr

/-- The `page_data` dict built by `_fetch_attempt` on success. -/
def browserResult (url : String) (r : BrowserFetch) : FetchResult :=
  { url := url, final_url := r.finalUrl, html := r.html, soup := r.soup,
    status_code := r.status.getD 0, load_time := roundTo 2 r.loadTime,
    size_bytes := r.html.utf8ByteSize,
    is_https := urlScheme url == "https", domain := urlNetloc url,
    title := (findTag r.soup "title").bind (fun t => t.stringChild),
    meta_tags := extractMetaTags r.soup,
    images := findAll r.soup "img", links := findAll r.soup "a",
    forms := findAll r.soup "form", scripts := findAll r.soup "script",
    stylesheets := findStylesheets r.soup,
    headings := { h1 := findAll r.soup "h1", h2 := findAll r.soup "h2",
                  h3 := findAll r.soup "h3", h4 := findAll r.soup "h4",
                  h5 := findAll r.soup "h5", h6 := findAll r.soup "h6" },
    error := false }

/-- What the plain `httpx` GET of `_http_fallback` yielded on success. -/
structure HttpFetch where
  finalUrl : String
  status : Int
  html : String
  soup : Soup
  contentLen : Nat
  loadTime : ℚ
  deriving DecidableEq, Repr

/-- Outcome of the plain HTTP GET. -/
inductive HttpOutcome where
  | ok (r : HttpFetch)
  | failure (msg : String)
  deriving DecidableEq, Repr

/-- The success dict of `_http_fallback` (scheme/domain from the FINAL,
post-redirect URL). -/
def httpSuccess (url : String) (r : HttpFetch) : FetchResult :=
  { url := url, final_url := r.finalUrl, html := r.html, soup := r.soup,
    status_code := r.status, load_time := roundTo 2 r.loadTime,
    size_bytes := r.contentLen,
    is_https := urlScheme r.finalUrl == "https", domain := urlNetloc r.finalUrl,
    title := (findTag r.soup "title").bind (fun t => t.stringChild),
    meta_tags := extractMetaTags r.soup,
    images := findAll r.soup "img", links := findAll r.soup "a",
    forms := findAll r.soup "form", scripts := findAll r.soup "script",
    stylesheets := findStylesheets r.soup,
    headings := { h1 := findAll r.soup "h1", h2 := findAll r.soup "h2",
                  h3 := findAll r.soup "h3", h4 := findAll r.soup "h4",
                  h5 := findAll r.soup "h5", h6 := findAll r.soup "h6" },
    error := false, error_type := none, error_message := none,
    note := some "HTTP fallback used (Playwright blocked)" }

/-- `_http_fallback` (its unused first `error` string argument dropped). -/
def httpFallback (url : String) (h : HttpOutcome) : FetchResult :=
  match h with
  | .ok r => httpSuccess url r
  | .failure msg =>
    createErrorResponse url "fetch_failed" ("HTTP fallback failed: " ++ msg)

/-- One `_fetch_attempt`: either the page data, or the raised exception's
string (`str(e)`). -/
inductive AttemptOutcome where
  | ok (r : BrowserFetch)
  | raised (msg : String)
  deriving Repr

/-- The substring `fetch` looks for to classify DNS failures. -/
def dnsMarker : String := "ERR_NAME_NOT_RESOLVED"

/-- The retry loop of `fetch`.  `fuel` counts the retries still allowed
after the current attempt (the Python loop runs `attempt` from 0 to
`max_retries`, so `fuel = max_retries - attempt`): at `fuel = 0` we are on
the last round and a non-DNS failure goes to the HTTP fallback.  The
second component of the result accumulates the `2**attempt` backoff sleeps
actually performed, the third records whether the HTTP fallback ran. -/
def fetchGo (url : String) (outcomes : Nat → AttemptOutcome) (http : HttpOutcome) :
    Nat → Nat → ℚ → FetchResult × ℚ × Bool
  | fuel, attempt, delay =>
    match outcomes attempt with
    | .ok r => (browserResult url r, delay, false)
    | .raised msg =>
      if containsStr msg dnsMarker then
        (createErrorResponse url "dns_error" msg, delay, false)
      else
        match fuel with
        | 0 => (httpFallback url http, delay, true)
        | fuel' + 1 => fetchGo url outcomes http fuel' (attempt + 1) (delay + 2 ^ attempt)

/-- `FetcherService.fetch(url)`: the retry loop entered at attempt 0 with
`max_retries` retries remaining and no backoff spent. -/
def fetch (url : String) (outcomes : Nat → AttemptOutcome) (http : HttpOutcome)
    (maxRetries : Nat) : FetchResult × ℚ × Bool :=
  fetchGo url outcomes http maxRetries 0 0

end FetcherService

/-! ### Predicates used to state the claims -/

namespace HTMLBugsService

/-- "The local fallback finds nothing": every structural check passes. -/
def localClean (html : String) (soup : Soup) : Prop :=
  hasDoctype html = true ∧
  (findTag soup "html").isNone = false ∧
  (findTag soup "head").isNone = false ∧
  (findTag soup "body").isNone = false ∧
  (findTag soup "title").isNone = false ∧
  charsetMetaPresent soup = true ∧
  findDuplicateIds soup = [] ∧
  imgsWithoutAlt soup = [] ∧
  findAll soup "center" = [] ∧ findAll soup "font" = [] ∧
  findAll soup "marquee" = [] ∧ findAll soup "blink" = [] ∧
  findAll soup "big" = [] ∧ findAll soup "strike" = []

end HTMLBugsService

namespace AccessibilityService

/-- "The accessibility analyzer finds nothing": all six checks are clean. -/
def a11yClean (soup : Soup) : Prop :=
  checkImagesAlt soup = [] ∧ checkFormLabels soup = [] ∧
  checkHeadingHierarchy soup = [] ∧ checkLinkText soup = [] ∧
  checkColorContrast soup = [] ∧ checkLangAttribute soup = true

end AccessibilityService

namespace SecurityService

/-- The VirusTotal check produced a `critical` record. -/
def vtCriticalB (resp : VTResponse) : Bool :=
  match checkVirustotal resp with
  | some i => i.type == "critical"
  | none => false

end SecurityService

namespace FetcherService

/-- A well-formed FetchedPage for `url`: the error variant has empty
content/collections, zero timing/size, and an error kind mapped to its
representative status; a success result has no error kind. -/
def wellFormed (url : String) (r : FetchResult) : Prop :=
  r.url = url ∧
  (r.error = true →
    r.html = "" ∧ r.soup = [] ∧ r.load_time = 0 ∧ r.size_bytes = 0 ∧
    r.title = none ∧ r.meta_tags = [] ∧ r.images = [] ∧ r.links = [] ∧
    r.forms = [] ∧ r.scripts = [] ∧ r.stylesheets = [] ∧
    r.headings = {} ∧
    ∃ t, r.error_type = some t ∧ r.status_code = statusFor t) ∧
  (r.error = false → r.error_type = none)

end FetcherService

/-! ### Concrete instances used by counterexamples and witnesses -/

/-- The C4 scenario page: no `<title>`, no DOCTYPE, three images without
`alt`, one duplicate `id="nav"`; `html`/`head`/`body` and a charset meta
are present, no deprecated tags.  Corresponds to
`<html lang="en"><head><meta charset="utf-8"></head><body>`
`<img src="a.png"><img src="b.png"><img src="c.png">`
`<div id="nav"></div><span id="nav"></span></body></html>`. -/
def exSoupC4 : Soup :=
  [{ name := "html", attrs := [("lang", "en")] },
   { name := "head", attrs := [], ancestors := ["html"] },
   { name := "meta", attrs := [("charset", "utf-8")], ancestors := ["head", "html"] },
   { name := "body", attrs := [], ancestors := ["html"] },
   { name := "img", attrs := [("src", "a.png")], ancestors := ["body", "html"] },
   { name := "img", attrs := [("src", "b.png")], ancestors := ["body", "html"] },
   { name := "img", attrs := [("src", "c.png")], ancestors := ["body", "html"] },
   { name := "div", attrs := [("id", "nav")], ancestors := ["body", "html"] },
   { name := "span", attrs := [("id", "nav")], ancestors := ["body", "html"] }]

/-- The raw HTML string of the C4 scenario (no DOCTYPE prefix). -/
def exHtmlC4 : String :=
  "<html lang=\"en\"><head><meta charset=\"utf-8\"></head><body><img src=\"a.png\"><img src=\"b.png\"><img src=\"c.png\"><div id=\"nav\"></div><span id=\"nav\"></span></body></html>"

/-- A clean page for the C1 witness: only `<html lang="en">` with an empty
head/body — no images, inputs, headings, links or styled elements. -/
def wSoupClean : Soup :=
  [{ name := "html", attrs := [("lang", "en")] },
   { name := "head", attrs := [], ancestors := ["html"] },
   { name := "body", attrs := [], ancestors := ["html"] }]

/-- A response-header dict carrying all five required security headers. -/
def wHeadersAll : List (String × String) :=
  [("Strict-Transport-Security", "max-age=63072000"),
   ("Content-Security-Policy", "default-src \x27self\x27"),
   ("X-Frame-Options", "DENY"),
   ("X-Content-Type-Options", "nosniff"),
   ("Referrer-Policy", "no-referrer")]

/-- A page with exactly two inline scripts (no `src`, literal code) for the
C6 witness. -/
def wSoupTwoScripts : Soup :=
  [{ name := "html", attrs := [] },
   { name := "body", attrs := [], ancestors := ["html"] },
   { name := "script", attrs := [], stringChild := some "var x = 1;",
     ancestors := ["body", "html"] },
   { name := "script", attrs := [], stringChild := some "var y = 2;",
     ancestors := ["body", "html"] }]

/-- A successful plain-HTTP fetch for the C3 witness. -/
def wHttpPage : FetcherService.HttpFetch :=
  { finalUrl := "https://example.com/", status := 200, html := "<p>hi</p>",
    soup := [{ name := "p", attrs := [], stringChild := some "hi", textContent := "hi" }],
    contentLen := 9, loadTime := 1/2 }

/-- A cached PageSpeed success result for the C9 instances. -/
def cePerfData : PerformanceService.PerfResult :=
  { available := true, fallback := false, score := some 90, grade := some "A",
    metrics := [("lcp", 12/10), ("fcp", 8/10), ("cls", 1/100), ("tbt", 50)],
    source := "Google PageSpeed Insights", cached := some false }

/-- A cache entry written at time 0. -/
def ceEntry : PerformanceService.CacheEntry := { data := cePerfData, cachedAt := 0 }

/-- Process state holding that fresh entry for `(https://example.com, mobile)`. -/
def ceState : PerformanceService.PerfState :=
  { cache := [(PerformanceService.cacheKey "https://example.com" "mobile", ceEntry)],
    lastCallTs := 0 }

/-- An evidence bundle with an available prober score, one security issue,
two accessibility issues, no HTML bugs, and full SEO metadata. -/
def wQA : FeedbackService.QAResult :=
  { performance := { available := true, score := some 72, load_time := some "1.2s" },
    security_issues :=
      { primary_check := "VirusTotal",
        fallback_used := true,
        issues := [{ type := "critical", category := some "security",
                     message := "Site is not using HTTPS" }] },
    accessibility_issues :=
      [{ type := "error", category := some "accessibility",
         message := "Found 1 image(s) without alt text" },
       { type := "error", category := some "accessibility",
         message := "Missing \x27lang\x27 attribute on <html> element" }],
    html_bugs := [],
    seo_data := { title := some "Home", meta_tags := [("description", "d")] },
    load_time := some "1.2" }

/-- The same bundle with the prober unavailable. -/
def wQA2 : FeedbackService.QAResult :=
  { wQA with performance := { available := false } }

/-! ### The claims -/

/-- C2: every ReportBundle produced by the deterministic fallback generator
has exactly 5 metrics in the fixed category order Performance, Security,
Accessibility, Code Quality, SEO, and its `overall_score` is the integer
floor of the arithmetic mean of the five metric scores. -/
theorem claim_C2_metrics_order_and_overall_mean (qa : FeedbackService.QAResult) :
    (FeedbackService.fallbackReport qa).metrics.map (fun m => m.name) =
      ["Performance", "Security", "Accessibility", "Code Quality", "SEO"] ∧
    (FeedbackService.fallbackReport qa).overall_score =
      Int.fdiv (((FeedbackService.fallbackReport qa).metrics.map (fun m => m.score)).sum) 5 := by
  constructor
  · simp [FeedbackService.fallbackReport]
  · simp only [FeedbackService.fallbackReport, List.map_cons, List.map_nil,
      List.sum_cons, List.sum_nil, add_zero]
    congr 1
    ring

/-- C10: in every fallback ReportBundle the details block satisfies
`total_issues = critical_issues + warnings`, with `critical_issues` the
number of security issue records, `warnings` the accessibility plus
HTML-bug record counts, and `ai_powered = false`. -/
theorem claim_C10_details_issue_arithmetic (qa : FeedbackService.QAResult) :
    (FeedbackService.fallbackReport qa).details.total_issues =
      (FeedbackService.fallbackReport qa).details.critical_issues +
      (FeedbackService.fallbackReport qa).details.warnings ∧
    (FeedbackService.fallbackReport qa).details.critical_issues =
      qa.security_issues.issues.length ∧
    (FeedbackService.fallbackReport qa).details.warnings =
      qa.accessibility_issues.length + qa.html_bugs.length ∧
    (FeedbackService.fallbackReport qa).details.ai_powered = false := by
  refine ⟨?_, rfl, rfl, rfl⟩
  simp [FeedbackService.fallbackReport, Nat.add_assoc]

/-- C5: the five fallback category scores follow the claimed formulas —
performance is the prober score when available else 85; security is
`max(0, 100 − 15·issues)`; accessibility is `max(0, 100 − 10·issues)`;
code quality is 95 with no HTML bugs else `max(0, 100 − 8·bugs)`; SEO is
`70 + 15·title + 15·meta`. -/
theorem claim_C5_fallback_score_formulas (qa : FeedbackService.QAResult) :
    ((FeedbackService.fallbackReport qa).metrics.map (fun m => m.score) =
      [(if qa.performance.available then qa.performance.score.getD 85 else 85),
       max 0 (100 - 15 * (qa.security_issues.issues.length : Int)),
       max 0 (100 - 10 * (qa.accessibility_issues.length : Int)),
       (if qa.html_bugs = [] then (95 : Int)
        else max 0 (100 - 8 * (qa.html_bugs.length : Int))),
       70 + (if FeedbackService.hasTitle qa then 15 else 0)
          + (if FeedbackService.hasMeta qa then 15 else 0)]) ∧
    (qa.performance.available = true → ∀ s, qa.performance.score = some s →
      ((FeedbackService.fallbackReport qa).metrics.map (fun m => m.score)).head? = some s) ∧
    (qa.performance.available = false →
      ((FeedbackService.fallbackReport qa).metrics.map (fun m => m.score)).head? = some 85) := by
  refine ⟨?_, ?_, ?_⟩
  · have hsec : FeedbackService.secScore qa
        = max 0 (100 - 15 * (qa.security_issues.issues.length : Int)) := by
      unfold FeedbackService.secScore; rw [mul_comm]
    have ha11y : FeedbackService.a11yScore qa
        = max 0 (100 - 10 * (qa.accessibility_issues.length : Int)) := by
      unfold FeedbackService.a11yScore; rw [mul_comm]
    have hcode : FeedbackService.codeScore qa
        = (if qa.html_bugs = [] then (95 : Int)
           else max 0 (100 - 8 * (qa.html_bugs.length : Int))) := by
      unfold FeedbackService.codeScore
      split_ifs
      · rfl
      · rw [mul_comm]
    simp [FeedbackService.fallbackReport, FeedbackService.perfScore,
      FeedbackService.seoScore, hsec, ha11y, hcode]
  · intro ha s hs
    simp [FeedbackService.fallbackReport, FeedbackService.perfScore, ha, hs]
  · intro ha
    simp [FeedbackService.fallbackReport, FeedbackService.perfScore, ha]

/-- C5 witness: at `wQA` (prober available with score 72) the performance
metric is 72; at `wQA2` (prober unavailable) it is 85. -/
theorem claim_C5_fallback_score_formulas_witness :
    ((FeedbackService.fallbackReport wQA).metrics.map (fun m => m.score)).head? = some 72 ∧
    ((FeedbackService.fallbackReport wQA2).metrics.map (fun m => m.score)).head? = some 85 :=
  ⟨(claim_C5_fallback_score_formulas wQA).2.1 rfl 72 rfl,
   (claim_C5_fallback_score_formulas wQA2).2.2 rfl⟩

/-- C7: the Performance Prober's fallback heuristic equals "start at 100,
subtract the TTFB penalty (>1.5s: 30, >1.0s: 20, >0.7s: 10) and the size
penalty (>500KB: 20, >300KB: 10), clamp to [30,100]"; the grade map is the
fixed step function (≥90 A, ≥80 B, ≥70 C, ≥60 D, else F); and
TTFB = 1.8s with size = 600KB gives score 50, grade F. -/
theorem claim_C7_fallback_heuristic_and_grades (ttfb sizeKb : ℚ) (s : Int) :
    PerformanceService.estimateScore ttfb sizeKb =
      max 30 (min (100 -
        (if 3/2 < ttfb then 30 else if 1 < ttfb then 20
         else if 7/10 < ttfb then 10 else 0) -
        (if 500 < sizeKb then 20 else if 300 < sizeKb then 10 else 0)) 100) ∧
    PerformanceService.grade s =
      (if 90 ≤ s then "A" else if 80 ≤ s then "B" else if 70 ≤ s then "C"
       else if 60 ≤ s then "D" else "F") ∧
    PerformanceService.estimateScore (18/10) 600 = 50 ∧
    PerformanceService.grade 50 = "F" := by
  refine ⟨?_, rfl, ?_, rfl⟩
  · unfold PerformanceService.estimateScore
    split_ifs <;> rfl
  · norm_num [PerformanceService.estimateScore]

/-- C4 counterexample: on the scenario page (no title, no DOCTYPE, three
images without alt, one duplicate `id="nav"`, with html/head/body and a
charset meta present) the local fallback does NOT return exactly 4
records — it returns 5, because it always prepends an info record marking
that local validation started. -/
theorem claim_C4_counterexample :
    (HTMLBugsService.localValidation exHtmlC4 exSoupC4).length ≠ 4 := by
  decide

/-- C4 (amended): on that scenario the local fallback returns exactly 5
records: the leading "Local HTML validation started" info record, then the
doctype warning, the missing-title error, the duplicate-id error, and the
alt-count warning, in that order. -/
theorem claim_C4_amended_local_fallback_records :
    HTMLBugsService.localValidation exHtmlC4 exSoupC4 =
      [{ type := "info", message := "Local HTML validation started" },
       { type := "warning", message := "Missing or invalid DOCTYPE declaration" },
       { type := "error", message := "Missing <title> element" },
       { type := "error", message := "Duplicate ID \x27nav\x27 found" },
       { type := "warning", message := "Found 3 <img> without \x27alt\x27 attribute" }] := by
  decide

/-- C6: the Security Analyzer puts the reputation finding first whenever
one is produced; a verdict with a nonzero malicious or suspicious count
yields a single critical record with the static checks skipped; and with
the reputation check unavailable, an `http://` URL, no security headers
and two inline scripts it returns exactly critical (no HTTPS), high
(missing headers), medium (inline scripts), in that order. -/
theorem claim_C6_security_analyzer_order (soup : Soup) (url : String)
    (headers : List (String × String)) (resp : SecurityService.VTResponse) :
    (∀ i, SecurityService.checkVirustotal resp = some i →
      (SecurityService.analyze true resp soup url headers).issues.head? = some i) ∧
    (∀ m s, resp = .stats m s → (0 < m ∨ 0 < s) →
      SecurityService.analyze true resp soup url headers =
        { primary_check := "VirusTotal", fallback_used := false,
          issues := [{ type := "critical", category := some "security",
                       source := some "VirusTotal",
                       message := "URL flagged as malicious or suspicious",
                       stats := some (m, s) }] }) ∧
    (SecurityService.isHttps url = false → headers = [] →
     SecurityService.countInlineScripts soup = 2 →
      (SecurityService.analyze false resp soup url headers).issues =
        [{ type := "critical", category := some "security",
           message := "Site is not using HTTPS" },
         { type := "high", category := some "security",
           message := "Missing security headers",
           details := SecurityService.requiredHeaders },
         { type := "medium", category := some "security",
           message := "2 inline scripts detected" }]) := by
  refine ⟨?_, ?_, ?_⟩
  · intro i hi
    unfold SecurityService.analyze
    rw [hi]
    by_cases hc : i.type == "critical" <;> simp [hc]
  · intro m s hresp hpos
    subst hresp
    have : SecurityService.checkVirustotal (.stats m s) =
        some { type := "critical", category := some "security",
               source := some "VirusTotal",
               message := "URL flagged as malicious or suspicious",
               stats := some (m, s) } := by
      simp only [SecurityService.checkVirustotal]
      rw [if_pos hpos]
    unfold SecurityService.analyze
    rw [this]
    simp
  · intro hhttps hheaders hcount
    unfold SecurityService.analyze SecurityService.staticHtmlChecks
    rw [hhttps, hheaders, hcount]
    simp [SecurityService.missingHeaders, SecurityService.requiredHeaders]
    rfl

/-- C6 witness: concrete instances of all three conjuncts — a clean
verdict is returned first; a 3-malicious verdict short-circuits to the
single critical record; and the `http://` page with two inline scripts
and no headers gives critical + high + medium. -/
theorem claim_C6_security_analyzer_order_witness :
    (SecurityService.analyze true (.stats 0 0) wSoupClean "https://example.com"
        wHeadersAll).issues.head? =
      some { type := "info", category := some "security", source := some "VirusTotal",
             message := "URL not flagged by VirusTotal" } ∧
    SecurityService.analyze true (.stats 3 0) wSoupClean "https://example.com"
        wHeadersAll =
      { primary_check := "VirusTotal", fallback_used := false,
        issues := [{ type := "critical", category := some "security",
                     source := some "VirusTotal",
                     message := "URL flagged as malicious or suspicious",
                     stats := some (3, 0) }] } ∧
    (SecurityService.analyze false .failure wSoupTwoScripts "http://example.com"
        []).issues =
      [{ type := "critical", category := some "security",
         message := "Site is not using HTTPS" },
       { type := "high", category := some "security",
         message := "Missing security headers",
         details := SecurityService.requiredHeaders },
       { type := "medium", category := some "security",
         message := "2 inline scripts detected" }] :=
  ⟨(claim_C6_security_analyzer_order wSoupClean "https://example.com" wHeadersAll
      (.stats 0 0)).1 _ (by decide),
   (claim_C6_security_analyzer_order wSoupClean "https://example.com" wHeadersAll
      (.stats 3 0)).2.1 3 0 rfl (by decide),
   (claim_C6_security_analyzer_order wSoupTwoScripts "http://example.com" []
      .failure).2.2 (by decide) rfl (by decide)⟩


/-- A list guarded by an emptiness test never ends up empty. -/
theorem ite_nil_ne_nil {α : Type} [DecidableEq α] (l d : List α) (hd : d ≠ []) :
    (if l = [] then d else l) ≠ [] := by
  by_cases h : l = []
  · rw [if_pos h]; exact hd
  · rw [if_neg h]; exact h

/-- A list guarded by a length test never ends up empty. -/
theorem ite_length_ne_nil {α : Type} (l d : List α) (hd : d ≠ []) :
    (if 1 < l.length then l else d) ≠ [] := by
  by_cases h : 1 < l.length
  · rw [if_pos h]
    intro hnil
    rw [hnil] at h
    simp at h
  · rw [if_neg h]; exact hd

/-- C1: every analyzer (HTML-correctness, accessibility, security) returns
a non-empty issue list for every input, and an analyzer that finds nothing
returns exactly one `info` record. -/
theorem claim_C1_analyzers_never_empty (w3c : HTMLBugsService.W3COutcome)
    (html : String) (soup soupA soupS : Soup) (vtAvailable : Bool)
    (resp : SecurityService.VTResponse) (url : String)
    (headers : List (String × String)) :
    (HTMLBugsService.analyze w3c html soup ≠ [] ∧
      (∀ ms, w3c = .ok ms →
        ms.filter (fun m => m.type == "error" || m.type == "warning") = [] →
        HTMLBugsService.analyze w3c html soup =
          [{ type := "info", message := "No HTML bugs found" }]) ∧
      (w3c = .failure → HTMLBugsService.localClean html soup →
        HTMLBugsService.analyze w3c html soup =
          [{ type := "info", message := "No major HTML issues detected" }])) ∧
    (AccessibilityService.analyze soupA ≠ [] ∧
      (AccessibilityService.a11yClean soupA →
        AccessibilityService.analyze soupA =
          [{ type := "info", message := "No accessibility issues detected" }])) ∧
    ((SecurityService.analyze vtAvailable resp soupS url headers).issues ≠ [] ∧
      (SecurityService.staticHtmlChecks soupS url headers = [] →
       ¬ (vtAvailable = true ∧ SecurityService.vtCriticalB resp = true) →
        (SecurityService.analyze vtAvailable resp soupS url headers).issues.length = 1 ∧
        (SecurityService.analyze vtAvailable resp soupS url headers).issues.all
          (fun r => r.type == "info") = true)) := by
  refine ⟨⟨?_, ?_, ?_⟩, ⟨?_, ?_⟩, ⟨?_, ?_⟩⟩
  · cases w3c with
    | ok msgs =>
      simp only [HTMLBugsService.analyze]
      exact ite_nil_ne_nil _ _ (by simp)
    | failure =>
      simp only [HTMLBugsService.analyze, HTMLBugsService.localValidation]
      exact ite_length_ne_nil _ _ (by simp)
  · intro ms hw hfilter
    subst hw
    simp [HTMLBugsService.analyze, hfilter]
  · intro hw hclean
    subst hw
    obtain ⟨h1, h2, h3, h4, h5, h6, h7, h8, h9, h10, h11, h12, h13, h14⟩ := hclean
    simp [HTMLBugsService.analyze, HTMLBugsService.localValidation,
      HTMLBugsService.deprecatedTags, h1, h2, h3, h4, h5, h6, h7, h8, h9, h10,
      h11, h12, h13, h14]
  · simp only [AccessibilityService.analyze]
    exact ite_nil_ne_nil _ _ (by simp)
  · intro hclean
    obtain ⟨h1, h2, h3, h4, h5, h6⟩ := hclean
    simp [AccessibilityService.analyze, h1, h2, h3, h4, h5, h6]
  · cases vtAvailable with
    | false =>
      simp only [SecurityService.analyze, Bool.false_eq_true, if_false]
      exact ite_nil_ne_nil _ _ (by simp)
    | true =>
      simp only [SecurityService.analyze, if_true]
      cases hvt : SecurityService.checkVirustotal resp with
      | none =>
        simp only
        exact ite_nil_ne_nil _ _ (by simp)
      | some i =>
        by_cases hc : i.type == "critical" <;> simp [hc]
  · intro hstatic hncrit
    cases vtAvailable with
    | false => simp [SecurityService.analyze, hstatic]
    | true =>
      cases resp with
      | notFound =>
        simp [SecurityService.analyze, SecurityService.checkVirustotal, hstatic]
      | failure =>
        simp [SecurityService.analyze, SecurityService.checkVirustotal, hstatic]
      | stats m s =>
        by_cases hpos : 0 < m ∨ 0 < s
        · exact absurd ⟨rfl, by
            simp [SecurityService.vtCriticalB, SecurityService.checkVirustotal, hpos]⟩ hncrit
        · simp [SecurityService.analyze, SecurityService.checkVirustotal, hpos, hstatic]

/-- C1 witness: on a clean page with the reputation key unavailable and a
W3C reply with no error/warning messages, each analyzer returns exactly
one info record. -/
theorem claim_C1_analyzers_never_empty_witness :
    HTMLBugsService.analyze (.ok []) "" [] =
      [{ type := "info", message := "No HTML bugs found" }] ∧
    AccessibilityService.analyze wSoupClean =
      [{ type := "info", message := "No accessibility issues detected" }] ∧
    (SecurityService.analyze false .failure wSoupClean "https://example.com"
        wHeadersAll).issues.length = 1 :=
  ⟨(claim_C1_analyzers_never_empty (.ok []) "" [] [] [] false .failure
      "https://example.com" wHeadersAll).1.2.1 [] rfl rfl,
   (claim_C1_analyzers_never_empty (.ok []) "" [] wSoupClean [] false .failure
      "https://example.com" wHeadersAll).2.1.2 ⟨rfl, rfl, rfl, rfl, rfl, rfl⟩,
   ((claim_C1_analyzers_never_empty (.ok []) "" [] [] wSoupClean false .failure
      "https://example.com" wHeadersAll).2.2.2 rfl (by simp)).1⟩

namespace FetcherService

theorem wellFormed_browserResult (url : String) (r : BrowserFetch) :
    wellFormed url (browserResult url r) :=
  ⟨rfl, by simp [browserResult], fun _ => rfl⟩

theorem wellFormed_createErrorResponse (url t m : String) :
    wellFormed url (createErrorResponse url t m) :=
  ⟨rfl, fun _ => ⟨rfl, rfl, rfl, rfl, rfl, rfl, rfl, rfl, rfl, rfl, rfl, rfl,
    ⟨t, rfl, rfl⟩⟩, by simp [createErrorResponse]⟩

theorem wellFormed_httpFallback (url : String) (h : HttpOutcome) :
    wellFormed url (httpFallback url h) := by
  cases h with
  | ok r => exact ⟨rfl, by simp [httpFallback, httpSuccess], fun _ => rfl⟩
  | failure m => exact wellFormed_createErrorResponse url "fetch_failed" _

theorem fetchGo_cases (url : String) (outcomes : Nat → AttemptOutcome)
    (http : HttpOutcome) :
    ∀ (fuel attempt : Nat) (delay : ℚ),
      (∃ i r, attempt ≤ i ∧ i ≤ attempt + fuel ∧ outcomes i = .ok r ∧
        (fetchGo url outcomes http fuel attempt delay).1 = browserResult url r) ∨
      (∃ i msg, attempt ≤ i ∧ i ≤ attempt + fuel ∧ outcomes i = .raised msg ∧
        containsStr msg dnsMarker = true ∧
        (fetchGo url outcomes http fuel attempt delay).1 =
          createErrorResponse url "dns_error" msg) ∨
      ((∀ k, k ≤ fuel → ∃ m, outcomes (attempt + k) = .raised m ∧
          containsStr m dnsMarker = false) ∧
        (fetchGo url outcomes http fuel attempt delay).1 = httpFallback url http) := by
  intro fuel
  induction fuel with
  | zero =>
    intro attempt delay
    rcases ho : outcomes attempt with r | msg
    · exact Or.inl ⟨attempt, r, le_refl _, by omega, ho, by simp [fetchGo, ho]⟩
    · by_cases hd : containsStr msg dnsMarker
      · exact Or.inr (Or.inl ⟨attempt, msg, le_refl _, by omega, ho, hd,
          by simp [fetchGo, ho, hd]⟩)
      · refine Or.inr (Or.inr ⟨?_, by simp [fetchGo, ho, hd]⟩)
        intro k hk
        have hk0 : k = 0 := by omega
        subst hk0
        exact ⟨msg, by simpa using ho, by simpa using hd⟩
  | succ fuel ih =>
    intro attempt delay
    rcases ho : outcomes attempt with r | msg
    · exact Or.inl ⟨attempt, r, le_refl _, by omega, ho, by simp [fetchGo, ho]⟩
    · by_cases hd : containsStr msg dnsMarker
      · exact Or.inr (Or.inl ⟨attempt, msg, le_refl _, by omega, ho, hd,
          by simp [fetchGo, ho, hd]⟩)
      · have hstep : fetchGo url outcomes http (fuel + 1) attempt delay =
            fetchGo url outcomes http fuel (attempt + 1) (delay + 2 ^ attempt) := by
          simp [fetchGo, ho, hd]
        rcases ih (attempt + 1) (delay + 2 ^ attempt) with
          ⟨i, r, hi1, hi2, hio, hres⟩ | ⟨i, m2, hi1, hi2, hio, hdns, hres⟩ | ⟨hall, hres⟩
        · exact Or.inl ⟨i, r, by omega, by omega, hio, by rw [hstep]; exact hres⟩
        · exact Or.inr (Or.inl ⟨i, m2, by omega, by omega, hio, hdns,
            by rw [hstep]; exact hres⟩)
        · refine Or.inr (Or.inr ⟨?_, by rw [hstep]; exact hres⟩)
          intro k hk
          cases k with
          | zero => exact ⟨msg, by simpa using ho, by simpa using hd⟩
          | succ k' =>
            obtain ⟨m3, h3, h4⟩ := hall k' (by omega)
            refine ⟨m3, ?_, h4⟩
            rw [show attempt + (k' + 1) = attempt + 1 + k' from by omega]
            exact h3

end FetcherService

/-- C3: `fetch` never fails — every exit path yields a well-formed
FetchedPage; if the browser tier fails (non-DNS) on every attempt within
the retry budget and the plain HTTP fetch succeeds, the result still has
`error = false`; and the error variant appears only when a DNS failure
occurred or both tiers failed. -/
theorem claim_C3_fetch_never_fails (url : String) (outcomes : Nat → FetcherService.AttemptOutcome)
    (http : FetcherService.HttpOutcome) (maxRetries : Nat) :
    FetcherService.wellFormed url (FetcherService.fetch url outcomes http maxRetries).1 ∧
    ((∀ i, i ≤ maxRetries → ∃ m, outcomes i = .raised m ∧
        containsStr m FetcherService.dnsMarker = false) →
      ∀ r, http = .ok r →
        (FetcherService.fetch url outcomes http maxRetries).1.error = false) ∧
    ((FetcherService.fetch url outcomes http maxRetries).1.error = true →
      (∃ i msg, i ≤ maxRetries ∧ outcomes i = .raised msg ∧
        containsStr msg FetcherService.dnsMarker = true) ∨
      ((∀ i, i ≤ maxRetries → ∃ m, outcomes i = .raised m ∧
          containsStr m FetcherService.dnsMarker = false) ∧
        ∃ m, http = .failure m)) := by
  unfold FetcherService.fetch
  have hcases := FetcherService.fetchGo_cases url outcomes http maxRetries 0 0
  refine ⟨?_, ?_, ?_⟩
  · rcases hcases with ⟨i, r, _, _, _, hres⟩ | ⟨i, m, _, _, _, _, hres⟩ | ⟨_, hres⟩
    · rw [hres]; exact FetcherService.wellFormed_browserResult url r
    · rw [hres]; exact FetcherService.wellFormed_createErrorResponse url _ _
    · rw [hres]; exact FetcherService.wellFormed_httpFallback url http
  · intro hall r hr
    rcases hcases with ⟨i, r', h1, h2, hio, hres⟩ | ⟨i, m, h1, h2, hio, hdns, hres⟩ |
      ⟨_, hres⟩
    · obtain ⟨m, hm, _⟩ := hall i (by omega)
      rw [hio] at hm
      exact FetcherService.AttemptOutcome.noConfusion hm
    · obtain ⟨m', hm, hdf⟩ := hall i (by omega)
      rw [hio] at hm
      injection hm with hmm
      subst hmm
      rw [hdns] at hdf
      cases hdf
    · rw [hres, hr]
      rfl
  · intro herr
    rcases hcases with ⟨i, r, _, _, _, hres⟩ | ⟨i, m, h1, h2, hio, hdns, hres⟩ |
      ⟨hall, hres⟩
    · rw [hres] at herr
      exact absurd herr (by simp [FetcherService.browserResult])
    · exact Or.inl ⟨i, m, by omega, hio, hdns⟩
    · refine Or.inr ⟨?_, ?_⟩
      · intro i hi
        obtain ⟨m, hm, hd⟩ := hall i (by omega)
        exact ⟨m, by simpa using hm, hd⟩
      · cases http with
        | ok r =>
          rw [hres] at herr
          exact absurd herr (by simp [FetcherService.httpFallback, FetcherService.httpSuccess])
        | failure m => exact ⟨m, rfl⟩

/-- C8: whenever the error variant is returned its error-kind tag is
drawn from {dns_error, timeout, ssl_error, connection_refused,
fetch_failed} and its status code is the fixed representative mapping
(404/408/526/503/500); a DNS name-resolution failure is never retried and
is returned immediately on first occurrence with no retry delay. -/
theorem claim_C8_error_taxonomy (url : String) (outcomes : Nat → FetcherService.AttemptOutcome)
    (http : FetcherService.HttpOutcome) (maxRetries : Nat) :
    ((FetcherService.fetch url outcomes http maxRetries).1.error = true →
      ∃ t, (FetcherService.fetch url outcomes http maxRetries).1.error_type = some t ∧
        (t = "dns_error" ∨ t = "timeout" ∨ t = "ssl_error" ∨
         t = "connection_refused" ∨ t = "fetch_failed") ∧
        (FetcherService.fetch url outcomes http maxRetries).1.status_code
          = FetcherService.statusFor t) ∧
    (FetcherService.statusFor "dns_error" = 404 ∧
     FetcherService.statusFor "timeout" = 408 ∧
     FetcherService.statusFor "ssl_error" = 526 ∧
     FetcherService.statusFor "connection_refused" = 503 ∧
     FetcherService.statusFor "fetch_failed" = 500) ∧
    (∀ msg, outcomes 0 = .raised msg →
      containsStr msg FetcherService.dnsMarker = true →
      FetcherService.fetch url outcomes http maxRetries =
        (FetcherService.createErrorResponse url "dns_error" msg, 0, false)) := by
  refine ⟨?_, ⟨rfl, rfl, rfl, rfl, rfl⟩, ?_⟩
  · unfold FetcherService.fetch
    intro herr
    rcases FetcherService.fetchGo_cases url outcomes http maxRetries 0 0 with
      ⟨i, r, _, _, _, hres⟩ | ⟨i, m, _, _, _, _, hres⟩ | ⟨_, hres⟩
    · rw [hres] at herr
      exact absurd herr (by simp [FetcherService.browserResult])
    · rw [hres]
      exact ⟨"dns_error", rfl, by simp, rfl⟩
    · cases http with
      | ok r =>
        rw [hres] at herr
        exact absurd herr (by simp [FetcherService.httpFallback, FetcherService.httpSuccess])
      | failure m =>
        rw [hres]
        exact ⟨"fetch_failed", rfl, by simp, rfl⟩
  · intro msg h0 hdns
    unfold FetcherService.fetch
    cases maxRetries with
    | zero => simp [FetcherService.fetchGo, h0, hdns]
    | succ n => simp [FetcherService.fetchGo, h0, hdns]

/-- C3 witness: with every browser attempt raising a non-DNS error and the
plain HTTP fetch succeeding, the result has `error = false`. -/
theorem claim_C3_fetch_never_fails_witness :
    (FetcherService.fetch "https://example.com" (fun _ => .raised "browser crashed")
      (.ok wHttpPage) 2).1.error = false :=
  (claim_C3_fetch_never_fails "https://example.com" (fun _ => .raised "browser crashed")
      (.ok wHttpPage) 2).2.1 (fun _ _ => ⟨"browser crashed", rfl, by decide⟩)
    wHttpPage rfl

/-- C8 witness: a DNS failure on the first attempt returns the `dns_error`
variant immediately, with zero backoff delay and no HTTP fallback. -/
theorem claim_C8_error_taxonomy_witness :
    FetcherService.fetch "https://nope.invalid"
        (fun _ => .raised "net::ERR_NAME_NOT_RESOLVED") (.failure "offline") 2 =
      (FetcherService.createErrorResponse "https://nope.invalid" "dns_error"
        "net::ERR_NAME_NOT_RESOLVED", 0, false) :=
  (claim_C8_error_taxonomy "https://nope.invalid"
      (fun _ => .raised "net::ERR_NAME_NOT_RESOLVED") (.failure "offline") 2).2.2
    "net::ERR_NAME_NOT_RESOLVED" rfl (by decide)

/-- `analyzeUncached` modifies the cache only when the external call
succeeded, and what it stores is the parsed (non-fallback) result. -/
theorem analyzeUncached_cache (url strategy : String)
    (st : PerformanceService.PerfState) (now tsResp : ℚ)
    (api : PerformanceService.APIOutcome) (fb : PerformanceService.FallbackOutcome) :
    (PerformanceService.analyzeUncached url strategy st now tsResp api fb).state.cache
      = st.cache ∨
    (∃ d, api = .ok d ∧ (PerformanceService.parsePagespeed d).fallback = false ∧
      (PerformanceService.analyzeUncached url strategy st now tsResp api fb).state.cache =
        PerformanceService.upsertCache st.cache
          (PerformanceService.cacheKey url strategy)
          { data := PerformanceService.parsePagespeed d, cachedAt := tsResp }) := by
  unfold PerformanceService.analyzeUncached
  by_cases hcool : now - st.lastCallTs < PerformanceService.cooldownSeconds
  · rw [if_pos hcool]; left; rfl
  · rw [if_neg hcool]
    cases api with
    | ok d => right; exact ⟨d, rfl, rfl, rfl⟩
    | timeout => left; rfl
    | netError m => left; rfl
    | rateLimited => left; rfl
    | badRequest m => left; rfl
    | statusError m => left; rfl

/-- C9 (amended): when a PageSpeed API key is configured, a fresh cache
entry for the (url, strategy) key is returned immediately with
`cached = true` and no external call; when the cooldown has not elapsed
(and no fresh entry exists) the call goes straight to the local fallback
with no external call; and — for any key configuration — fallback results
are never written to the success cache (the cache changes only when the
external call succeeds, storing the parsed result). -/
theorem claim_C9_amended (url strategy : String)
    (st : PerformanceService.PerfState) (now tsResp : ℚ)
    (api : PerformanceService.APIOutcome) (fb : PerformanceService.FallbackOutcome) :
    (∀ e, PerformanceService.lookupCache st.cache
        (PerformanceService.cacheKey url strategy) = some e →
      now - e.cachedAt < PerformanceService.cacheDurationSeconds →
      PerformanceService.analyze true url strategy st now tsResp api fb =
        { result := { e.data with cached := some true }, state := st,
          externalCalled := false }) ∧
    ((∀ e, PerformanceService.lookupCache st.cache
        (PerformanceService.cacheKey url strategy) = some e →
        ¬ (now - e.cachedAt < PerformanceService.cacheDurationSeconds)) →
      now - st.lastCallTs < PerformanceService.cooldownSeconds →
      PerformanceService.analyze true url strategy st now tsResp api fb =
        { result := PerformanceService.fallbackCheck
            (.cooldown (PerformanceService.cooldownSeconds - (now - st.lastCallTs))) fb,
          state := st, externalCalled := false }) ∧
    (∀ hasKey, (PerformanceService.analyze hasKey url strategy st now tsResp api
        fb).state.cache = st.cache ∨
      (∃ d, api = .ok d ∧ (PerformanceService.parsePagespeed d).fallback = false ∧
        (PerformanceService.analyze hasKey url strategy st now tsResp api
            fb).state.cache =
          PerformanceService.upsertCache st.cache
            (PerformanceService.cacheKey url strategy)
            { data := PerformanceService.parsePagespeed d, cachedAt := tsResp })) := by
  refine ⟨?_, ?_, ?_⟩
  · intro e he hf
    simp [PerformanceService.analyze, he, hf]
  · intro hnf hcool
    cases hl : PerformanceService.lookupCache st.cache
        (PerformanceService.cacheKey url strategy) with
    | none => simp [PerformanceService.analyze, hl, PerformanceService.analyzeUncached, hcool]
    | some e =>
      have hne := hnf e hl
      simp [PerformanceService.analyze, hl, hne, PerformanceService.analyzeUncached, hcool]
  · intro hasKey
    cases hasKey with
    | false => left; rfl
    | true =>
      cases hl : PerformanceService.lookupCache st.cache
          (PerformanceService.cacheKey url strategy) with
      | none =>
        have := analyzeUncached_cache url strategy st now tsResp api fb
        simpa [PerformanceService.analyze, hl] using this
      | some e =>
        by_cases hf : now - e.cachedAt < PerformanceService.cacheDurationSeconds
        · left; simp [PerformanceService.analyze, hl, hf]
        · have := analyzeUncached_cache url strategy st now tsResp api fb
          simpa [PerformanceService.analyze, hl, hf] using this

/-- C9 counterexample: the claim fails as stated "for every Performance
Prober call" — when no API key is configured, a call finds its fresh cache
entry (`ceEntry`, age 1s < 6h) yet returns the local fallback result,
whose `cached` flag is not true, because the missing-key check precedes
the cache lookup. -/
theorem claim_C9_counterexample :
    PerformanceService.lookupCache ceState.cache
        (PerformanceService.cacheKey "https://example.com" "mobile") = some ceEntry ∧
    (1 : ℚ) - ceEntry.cachedAt < PerformanceService.cacheDurationSeconds ∧
    (PerformanceService.analyze false "https://example.com" "mobile" ceState 1 1
        .timeout (.failure "offline")).result =
      PerformanceService.fallbackCheck .missingKey (.failure "offline") ∧
    (PerformanceService.analyze false "https://example.com" "mobile" ceState 1 1
        .timeout (.failure "offline")).result.cached ≠ some true := by
  refine ⟨rfl, ?_, rfl, by decide⟩
  norm_num [ceEntry, PerformanceService.cacheDurationSeconds]

/-- C9 witness: with a key configured, the same fresh entry is returned
immediately with `cached = true` and no external call. -/
theorem claim_C9_amended_witness :
    PerformanceService.analyze true "https://example.com" "mobile" ceState 1 2
        .timeout (.failure "offline") =
      { result := { cePerfData with cached := some true }, state := ceState,
        externalCalled := false } :=
  (claim_C9_amended "https://example.com" "mobile" ceState 1 2 .timeout
      (.failure "offline")).1 ceEntry rfl
    (by norm_num [ceEntry, PerformanceService.cacheDurationSeconds])
